import Mathlib

/-!
Verification of the randlebrot procedural-world core against its design
specification.

The Rust sources are shallowly embedded: `f64` quantities are modelled as
exact rationals (`ℚ`), `f64::INFINITY` as the `none` case of `Option ℚ`,
machine integers as `ℤ`/`ℕ`, and hash maps as association lists.  Each
definition mirrors one Rust item and is named after it.
-/

namespace Randlebrot

/-- Modelled from the spec: the closed biome tag set (`TileType`).  `rb_core`
re-exports `biome::TileType`, but the enum declaration itself is not among the
provided sources; its ten variants are pinned exactly by the exhaustive
`match` arms in `derived/trade.rs` (`calculate_trade_cost`) and
`territory.rs` (`terrain_influence_decay`). -/
inductive TileType where
  | Sea
  | White
  | Beach
  | Plains
  | Forest
  | Desert
  | Sahara
  | Mountain
  | Plateau
  | Snow
  deriving DecidableEq

/-- Rust `f64::clamp(lo, hi)`: `min (max v lo) hi` (for `lo ≤ hi`). -/
def rclamp (v lo hi : ℚ) : ℚ := min (max v lo) hi

/-- `BiomeSplines` (rb_noise/src/biome_splines.rs): spline-based biome
evaluator carrying the sea-level threshold. -/
structure BiomeSplines where
  sea_level : ℚ

namespace BiomeSplines

/-- `BiomeSplines::compute_elevation` (biome_splines.rs lines 50-62). -/
def compute_elevation (s : BiomeSplines) (cont peaks erosion : ℚ) : ℚ :=
  let base := cont
  let land_factor := rclamp ((cont - s.sea_level) / (3/10)) 0 1
  let peak_contribution := peaks * (12/100) * land_factor
  let erosion_reduction := erosion * (4/100) * land_factor
  base + peak_contribution - erosion_reduction

/-- `BiomeSplines::adjust_temperature` (biome_splines.rs lines 65-76). -/
def adjust_temperature (s : BiomeSplines) (temp elevation tectonic : ℚ) : ℚ :=
  let elevation_above_sea := max (elevation - s.sea_level) 0
  let lapse_rate := elevation_above_sea * 60
  let boundary_proximity := 1 - tectonic
  let volcanic_heat := boundary_proximity * boundary_proximity * 8
  temp - lapse_rate + volcanic_heat

/-- `BiomeSplines::adjust_humidity` (biome_splines.rs lines 79-91). -/
def adjust_humidity (s : BiomeSplines) (humidity elevation _cont : ℚ) : ℚ :=
  let elevation_above_sea := max (elevation - s.sea_level) 0
  let rain_shadow :=
    if elevation_above_sea > 15/100 then
      min ((elevation_above_sea - 15/100) * (5/2)) (4/10)
    else 0
  rclamp (humidity - rain_shadow) 0 1

/-- `BiomeSplines::biome_from_climate` (biome_splines.rs lines 94-169). -/
def biome_from_climate (s : BiomeSplines) (elevation temp humidity : ℚ) : TileType :=
  if elevation < s.sea_level then
    if temp < -15 then TileType.White else TileType.Sea
  else
    let above_sea := elevation - s.sea_level
    if above_sea < 2/100 then
      if temp > 3 then TileType.Beach else TileType.Snow
    else if temp < 3 then TileType.Snow
    else if above_sea > 22/100 then
      if temp > 65 then TileType.Plateau else TileType.Mountain
    else if temp > 55 ∧ humidity < 3/10 then
      if temp > 70 ∧ humidity < 15/100 then TileType.Sahara else TileType.Desert
    else if above_sea > 12/100 then
      if humidity > 55/100 then TileType.Forest
      else if humidity < 25/100 ∧ temp > 40 then TileType.Desert
      else TileType.Mountain
    else if above_sea > 4/100 then
      if humidity > 6/10 then TileType.Forest
      else if humidity > 35/100 then TileType.Plains
      else if temp > 45 then TileType.Desert
      else TileType.Plains
    else if humidity > 1/2 then TileType.Forest
    else TileType.Plains

/-- `BiomeSplines::evaluate` (biome_splines.rs lines 27-47). -/
def evaluate (s : BiomeSplines) (continentalness temperature tectonic erosion
    peaks_valleys humidity : ℚ) : TileType :=
  let elevation := s.compute_elevation continentalness peaks_valleys erosion
  let adjusted_temp := s.adjust_temperature temperature elevation tectonic
  let adjusted_humidity := s.adjust_humidity humidity elevation continentalness
  s.biome_from_climate elevation adjusted_temp adjusted_humidity

end BiomeSplines

/-- `calculate_trade_cost` (rb_noise/src/derived/trade.rs lines 14-35);
`f64::INFINITY` is modelled as `none`. -/
def calculate_trade_cost (biome : TileType) (erosion : ℚ) : Option ℚ :=
  let base_cost : Option ℚ :=
    match biome with
    | TileType.Sea | TileType.White => none
    | TileType.Mountain => some 10
    | TileType.Plateau => some 6
    | TileType.Snow => some 8
    | TileType.Desert => some 5
    | TileType.Sahara => some 6
    | TileType.Forest => some 3
    | TileType.Beach => some (3/2)
    | TileType.Plains => some 1
  match base_cost with
  | none => none
  | some b =>
    let erosion_modifier := 1 - erosion * (2/10)
    some (b * erosion_modifier)

section ClaimLemmas

/-- When continentalness is strictly below sea level the land factor of
`compute_elevation` is zero, so the effective elevation is the
continentalness itself. -/
theorem compute_elevation_below_sea (s : BiomeSplines) (cont peaks erosion : ℚ)
    (h : cont < s.sea_level) : s.compute_elevation cont peaks erosion = cont := by
  unfold BiomeSplines.compute_elevation rclamp
  have hneg : (cont - s.sea_level) / (3/10) < 0 := by
    apply div_neg_of_neg_of_pos <;> [linarith; norm_num]
  have hmax : max ((cont - s.sea_level) / (3/10)) 0 = 0 := max_eq_right hneg.le
  rw [hmax]
  norm_num

end ClaimLemmas

/-- C1: for a cell whose continentalness is below sea level, `evaluate`
returns the frozen variant `White` exactly when the volcanic-heat-adjusted
temperature `temp + 8·(1 − tectonic)²` is below −15, and `Sea` otherwise —
the raw temperature input alone does not decide the outcome. -/
theorem evaluate_below_sea_level (s : BiomeSplines)
    (cont temp tect erosion peaks hum : ℚ) (h : cont < s.sea_level) :
    s.evaluate cont temp tect erosion peaks hum =
      (if temp + (1 - tect) * (1 - tect) * 8 < -15 then TileType.White
       else TileType.Sea) := by
  unfold BiomeSplines.evaluate
  rw [compute_elevation_below_sea s cont peaks erosion h]
  simp only []
  have hat : s.adjust_temperature temp cont tect =
      temp + (1 - tect) * (1 - tect) * 8 := by
    unfold BiomeSplines.adjust_temperature
    rw [max_eq_right (by linarith : cont - s.sea_level ≤ 0)]
    ring
  rw [hat]
  unfold BiomeSplines.biome_from_climate
  rw [if_pos h]

/-- Witness for `evaluate_below_sea_level` at a concrete input: sea level
−0.025, continentalness −0.5, raw temperature −20, tectonic 1 (plate
centre, no volcanic heat), giving the frozen variant. -/
theorem evaluate_below_sea_level_witness :
    (-(1/2) : ℚ) < (BiomeSplines.mk (-(25/1000))).sea_level ∧
      (BiomeSplines.mk (-(25/1000))).evaluate (-(1/2)) (-20) 1 (1/2) 0 (1/2) =
        TileType.White := by
  refine ⟨by norm_num, ?_⟩
  rw [evaluate_below_sea_level (BiomeSplines.mk (-(25/1000)))
    (-(1/2)) (-20) 1 (1/2) 0 (1/2) (by norm_num)]
  norm_num

/-- C1 counterexample: at continentalness −0.5 (below the default sea level
−0.025), raw temperature −20 < −15, but tectonic 0 (on a plate boundary)
adds 8 degrees of volcanic heat, so `evaluate` returns `Sea`, not the
frozen variant — refuting the claim that the raw temperature input alone
decides ice for all tectonic values. -/
theorem evaluate_below_sea_level_counterexample :
    ((-20 : ℚ) < -15) ∧
      (BiomeSplines.mk (-(25/1000))).evaluate (-(1/2)) (-20) 0 (1/2) 0 (1/2) =
        TileType.Sea := by
  constructor
  · norm_num
  · norm_num [BiomeSplines.evaluate, BiomeSplines.compute_elevation,
      BiomeSplines.adjust_temperature, BiomeSplines.adjust_humidity,
      BiomeSplines.biome_from_climate, rclamp]

/-- C2: over erosion values in [0, 1], `calculate_trade_cost` is infinite
exactly on the water biomes `Sea` and `White`; every other biome yields a
finite cost `b · (1 − erosion/5)` for a base cost `b ≥ 1`, so the result
lies between 80% of the base cost and the base cost itself, and is always
at least 4/5. -/
theorem calculate_trade_cost_spec (biome : TileType) (erosion : ℚ)
    (h0 : 0 ≤ erosion) (h1 : erosion ≤ 1) :
    (calculate_trade_cost biome erosion = none ↔
       biome = TileType.Sea ∨ biome = TileType.White) ∧
    (∀ c, calculate_trade_cost biome erosion = some c →
       ∃ b, 1 ≤ b ∧ c = b * (1 - erosion * (2/10)) ∧
         (4/5) * b ≤ c ∧ c ≤ b ∧ 4/5 ≤ c) := by
  have land : ∀ b c : ℚ, 1 ≤ b → c = b * (1 - erosion * (2/10)) →
      ∃ b2, 1 ≤ b2 ∧ c = b2 * (1 - erosion * (2/10)) ∧
        (4/5) * b2 ≤ c ∧ c ≤ b2 ∧ 4/5 ≤ c := by
    intro b c hb hc
    refine ⟨b, hb, hc, ?_, ?_, ?_⟩ <;> rw [hc] <;> nlinarith
  cases biome <;>
    refine ⟨by simp [calculate_trade_cost], fun c hc => ?_⟩ <;>
    simp only [calculate_trade_cost, Option.some.injEq] at hc <;>
    first
      | exact Option.noConfusion hc
      | exact land _ c (by norm_num) hc.symm

/-- Witness for `calculate_trade_cost_spec` at biome `Forest`,
erosion 1/2. -/
theorem calculate_trade_cost_spec_witness :
    ((0 : ℚ) ≤ 1/2) ∧ ((1/2 : ℚ) ≤ 1) ∧
    ((calculate_trade_cost TileType.Forest (1/2) = none ↔
        TileType.Forest = TileType.Sea ∨ TileType.Forest = TileType.White) ∧
      (∀ c, calculate_trade_cost TileType.Forest (1/2) = some c →
        ∃ b, 1 ≤ b ∧ c = b * (1 - (1/2) * (2/10)) ∧
          (4/5) * b ≤ c ∧ c ≤ b ∧ 4/5 ≤ c)) :=
  ⟨by norm_num, by norm_num,
    calculate_trade_cost_spec TileType.Forest (1/2) (by norm_num) (by norm_num)⟩

/-- C2 counterexample: the `Plains` biome with erosion 1 yields the finite
cost 4/5, which is strictly below 1 — refuting the claim that every finite
trade cost is at least 1. -/
theorem calculate_trade_cost_counterexample :
    calculate_trade_cost TileType.Plains 1 = some (4/5) ∧ ((4/5 : ℚ) < 1) := by
  constructor
  · norm_num [calculate_trade_cost]
  · norm_num

/-- `ResourceType` (rb_core/src/resource_type.rs lines 6-24): the twelve
resource kinds. -/
inductive ResourceType where
  | Iron | Gold | Copper | Silver
  | Gems | Coal | Stone | Salt
  | Timber | Fish | FertileSoil | WildGame
  deriving DecidableEq

/-- Lookup in an association list, modelling `HashMap::get`. -/
def assocGet (k : ℕ) : List (ℕ × α) → Option α
  | [] => none
  | (k2, v) :: rest => if k = k2 then some v else assocGet k rest

/-- Insert-or-replace in an association list, modelling `HashMap` keyed
update. -/
def assocSet (k : ℕ) (v : α) : List (ℕ × α) → List (ℕ × α)
  | [] => [(k, v)]
  | (k2, v2) :: rest =>
    if k = k2 then (k2, v) :: rest else (k2, v2) :: assocSet k v rest

/-- `ResourceMap` (rb_noise/src/resource_map.rs lines 7-13): sparse per-cell
resource abundances; the `HashMap` from pixel index to a small vector is
modelled as an association list. -/
structure ResourceMap where
  width : ℕ
  height : ℕ
  resources : List (ℕ × List (ResourceType × ℚ))

namespace ResourceMap

/-- `ResourceMap::new` (resource_map.rs lines 16-22). -/
def new (width height : ℕ) : ResourceMap := ⟨width, height, []⟩

/-- `ResourceMap::set` (resource_map.rs lines 26-40): abundances below 0.01
are dropped; otherwise the entry for the cell is updated in place or
appended. -/
def set (m : ResourceMap) (x y : ℕ) (resource : ResourceType)
    (abundance : ℚ) : ResourceMap :=
  if abundance < 1/100 then m
  else
    let idx := y * m.width + x
    let entry := (assocGet idx m.resources).getD []
    let entry2 :=
      if (entry.find? (fun p => p.1 == resource)).isSome then
        entry.map (fun p => if p.1 == resource then (p.1, abundance) else p)
      else entry ++ [(resource, abundance)]
    { m with resources := assocSet idx entry2 m.resources }

/-- `ResourceMap::get` (resource_map.rs lines 44-51). -/
def get (m : ResourceMap) (x y : ℕ) (resource : ResourceType) : ℚ :=
  let idx := y * m.width + x
  match assocGet idx m.resources with
  | none => 0
  | some v =>
    match v.find? (fun p => p.1 == resource) with
    | some p => p.2
    | none => 0

/-- `ResourceMap::has_resources` (resource_map.rs lines 63-66). -/
def has_resources (m : ResourceMap) (x y : ℕ) : Bool :=
  (assocGet (y * m.width + x) m.resources).isSome

end ResourceMap

/-- Looking up a key just written by `assocSet` yields the written value. -/
theorem assocGet_assocSet_self (k : ℕ) (v : α) :
    ∀ l : List (ℕ × α), assocGet k (assocSet k v l) = some v := by
  intro l
  induction l with
  | nil => simp [assocSet, assocGet]
  | cons hd tl ih =>
    by_cases h : k = hd.1
    · simp [assocSet, assocGet, h]
    · simpa [assocSet, assocGet, h] using ih

/-- C3: on a cell that stores nothing, `set` with abundance at least 0.01
round-trips exactly through `get`, while `set` with abundance below 0.01
leaves the cell empty: `has_resources` stays false and `get` returns 0. -/
theorem resource_map_set_get (m : ResourceMap) (x y : ℕ) (r : ResourceType)
    (a : ℚ) (hempty : m.has_resources x y = false) :
    (1/100 ≤ a → (m.set x y r a).get x y r = a) ∧
    (a < 1/100 → (m.set x y r a).has_resources x y = false ∧
      (m.set x y r a).get x y r = 0) := by
  have hnone : assocGet (y * m.width + x) m.resources = none := by
    unfold ResourceMap.has_resources at hempty
    exact Option.not_isSome_iff_eq_none.mp (by simp [hempty])
  constructor
  · intro ha
    have hcond : ¬ a < 1/100 := not_lt.mpr ha
    unfold ResourceMap.set ResourceMap.get
    rw [if_neg hcond]
    simp only [hnone, Option.getD_none, List.find?_nil, Option.isSome_none,
      Bool.false_eq_true, if_false, List.nil_append]
    rw [assocGet_assocSet_self]
    simp [List.find?]
  · intro ha
    unfold ResourceMap.set
    rw [if_pos ha]
    refine ⟨hempty, ?_⟩
    unfold ResourceMap.get
    simp only [hnone]

/-- Witness for `resource_map_set_get`: an empty 8×8 map, cell (2, 3),
abundance 1/2. -/
theorem resource_map_set_get_witness :
    (ResourceMap.new 8 8).has_resources 2 3 = false ∧
    ((1/100 ≤ (1/2 : ℚ) →
       ((ResourceMap.new 8 8).set 2 3 ResourceType.Gold (1/2)).get 2 3
         ResourceType.Gold = 1/2) ∧
     ((1/2 : ℚ) < 1/100 →
       ((ResourceMap.new 8 8).set 2 3 ResourceType.Gold (1/2)).has_resources
         2 3 = false ∧
       ((ResourceMap.new 8 8).set 2 3 ResourceType.Gold (1/2)).get 2 3
         ResourceType.Gold = 0)) :=
  ⟨rfl, resource_map_set_get (ResourceMap.new 8 8) 2 3 ResourceType.Gold
    (1/2) rfl⟩

/-- Rust `as i32` applied to an integral `f64`: a saturating cast. -/
def i32_saturate (z : ℤ) : ℤ := max (-2147483648) (min z 2147483647)

/-- `ChunkHierarchy::world_to_chunk` (rb_noise/src/chunk_hierarchy.rs lines
335-343) at integer world coordinates.  The chunk sizes in use (32, 64, 128)
are powers of two, so the `f64` divisions are exact: `(x / cs).floor()` is
flooring division (`Int.fdiv`) followed by the saturating `as i32` cast,
Rust `%` on integer-valued `f64` is the truncating remainder (`Int.tmod`),
and `as usize` on the intermediate value — which lies in (0, 2·cs) —
truncates to its integer part (`Int.toNat`). -/
def world_to_chunk (x y : ℤ) (chunk_size : ℕ) : (ℤ × ℤ) × ℕ × ℕ :=
  let chunk_x := i32_saturate (Int.fdiv x chunk_size)
  let chunk_y := i32_saturate (Int.fdiv y chunk_size)
  let local_x := (Int.tmod x chunk_size + chunk_size).toNat % chunk_size
  let local_y := (Int.tmod y chunk_size + chunk_size).toNat % chunk_size
  ((chunk_x, chunk_y), (local_x, local_y))

/-- The saturating cast is the identity on values in the i32 range. -/
theorem i32_saturate_eq {z : ℤ} (h1 : -2147483648 ≤ z)
    (h2 : z ≤ 2147483647) : i32_saturate z = z := by
  unfold i32_saturate
  omega

/-- The truncating remainder by a positive modulus is above its negation. -/
theorem neg_lt_tmod (x : ℤ) {c : ℤ} (hc : 0 < c) : -c < Int.tmod x c := by
  cases x with
  | ofNat m =>
    have hm : (0 : ℤ) ≤ Int.ofNat m := by
      rw [Int.ofNat_eq_natCast]
      exact_mod_cast Nat.zero_le m
    have h0 := Int.tmod_nonneg c hm
    omega
  | negSucc m =>
    cases c with
    | ofNat n =>
      have hn : 0 < n := by
        rw [Int.ofNat_eq_natCast] at hc
        exact_mod_cast hc
      have heq : Int.tmod (Int.negSucc m) (Int.ofNat n) =
          -((Nat.succ m % n : ℕ) : ℤ) := rfl
      have hlt := Nat.mod_lt (Nat.succ m) hn
      rw [heq, Int.ofNat_eq_natCast]
      omega
    | negSucc n =>
      have := Int.negSucc_lt_zero n
      omega

/-- One axis of `world_to_chunk`: the produced chunk coordinate is the floor
of `w / cs` and the local offset is the nonnegative remainder. -/
theorem world_to_chunk_axis (w : ℤ) (cs : ℕ) (hcs : 0 < cs) :
    Int.fdiv w cs * cs ≤ w ∧ w < (Int.fdiv w cs + 1) * cs ∧
    (((Int.tmod w cs + cs).toNat % cs : ℕ) : ℤ) = w - Int.fdiv w cs * cs ∧
    (Int.tmod w cs + cs).toNat % cs < cs := by
  have hc : (0 : ℤ) < (cs : ℤ) := by exact_mod_cast hcs
  have hfd : Int.fdiv w cs = w / (cs : ℤ) := Int.fdiv_eq_ediv w hc.le
  have hdm := Int.ediv_add_emod w (cs : ℤ)
  have hml := Int.emod_lt_of_pos w hc
  have hmn := Int.emod_nonneg w (by omega : (cs : ℤ) ≠ 0)
  have htu := Int.tmod_lt_of_pos w hc
  have htl := neg_lt_tmod w hc
  have htd := Int.tmod_add_tdiv w (cs : ℤ)
  have hnn : 0 ≤ Int.tmod w cs + (cs : ℤ) := by omega
  have hcast : (((Int.tmod w cs + cs).toNat % cs : ℕ) : ℤ) =
      (Int.tmod w cs + cs) % (cs : ℤ) := by
    push_cast [Int.toNat_of_nonneg hnn]
    ring_nf
  have hmod : (Int.tmod w cs + cs) % (cs : ℤ) = w % (cs : ℤ) := by
    conv_rhs => rw [← htd]
    rw [show Int.tmod w cs + (cs : ℤ) * Int.tdiv w cs =
        Int.tmod w cs + Int.tdiv w cs * (cs : ℤ) by ring]
    rw [Int.add_mul_emod_self]
    rw [show Int.tmod w cs + (cs : ℤ) = Int.tmod w cs + 1 * (cs : ℤ) by ring]
    rw [Int.add_mul_emod_self]
  refine ⟨?_, ?_, ?_, ?_⟩
  · rw [hfd]; linarith [hdm, hmn]
  · rw [hfd]
    have hexp : (w / (cs : ℤ) + 1) * cs = (cs : ℤ) * (w / cs) + cs := by ring
    rw [hexp]
    linarith [hdm, hml]
  · rw [hcast, hmod, hfd]; linarith [hdm]
  · exact Nat.mod_lt _ hcs

/-- C4 (amended): for every integer world coordinate whose flooring chunk
coordinate fits in an `i32` — in particular all negative coordinates of
that range — and each chunk size 32, 64 or 128, `world_to_chunk` returns
the flooring chunk coordinate together with a local offset in
[0, chunk_size) on each axis, and the offsets index the chunk's
`size × size` sample buffer in bounds.  Outside that range the `as i32`
cast saturates and the chunk coordinate is no longer the floor. -/
theorem world_to_chunk_spec (x y : ℤ) (cs : ℕ)
    (hcs : cs = 32 ∨ cs = 64 ∨ cs = 128)
    (hqx1 : -2147483648 ≤ Int.fdiv x cs) (hqx2 : Int.fdiv x cs ≤ 2147483647)
    (hqy1 : -2147483648 ≤ Int.fdiv y cs)
    (hqy2 : Int.fdiv y cs ≤ 2147483647) :
    (world_to_chunk x y cs).1.1 * cs ≤ x ∧
    x < ((world_to_chunk x y cs).1.1 + 1) * cs ∧
    (((world_to_chunk x y cs).2.1 : ℤ)) =
      x - (world_to_chunk x y cs).1.1 * cs ∧
    (world_to_chunk x y cs).2.1 < cs ∧
    (world_to_chunk x y cs).1.2 * cs ≤ y ∧
    y < ((world_to_chunk x y cs).1.2 + 1) * cs ∧
    (((world_to_chunk x y cs).2.2 : ℤ)) =
      y - (world_to_chunk x y cs).1.2 * cs ∧
    (world_to_chunk x y cs).2.2 < cs ∧
    (world_to_chunk x y cs).2.2 * cs + (world_to_chunk x y cs).2.1 <
      cs * cs := by
  have hpos : 0 < cs := by rcases hcs with rfl | rfl | rfl <;> norm_num
  have hsx : (world_to_chunk x y cs).1.1 = Int.fdiv x cs := by
    show i32_saturate (Int.fdiv x cs) = Int.fdiv x cs
    exact i32_saturate_eq hqx1 hqx2
  have hsy : (world_to_chunk x y cs).1.2 = Int.fdiv y cs := by
    show i32_saturate (Int.fdiv y cs) = Int.fdiv y cs
    exact i32_saturate_eq hqy1 hqy2
  rw [hsx, hsy]
  obtain ⟨hx1, hx2, hx3, hx4⟩ := world_to_chunk_axis x cs hpos
  obtain ⟨hy1, hy2, hy3, hy4⟩ := world_to_chunk_axis y cs hpos
  refine ⟨hx1, hx2, hx3, hx4, hy1, hy2, hy3, hy4, ?_⟩
  have hstep : (world_to_chunk x y cs).2.2 + 1 ≤ cs := hy4
  have hb : (world_to_chunk x y cs).2.1 < cs := hx4
  calc (world_to_chunk x y cs).2.2 * cs + (world_to_chunk x y cs).2.1
      < (world_to_chunk x y cs).2.2 * cs + cs := Nat.add_lt_add_left hb _
    _ = ((world_to_chunk x y cs).2.2 + 1) * cs := by ring
    _ ≤ cs * cs := Nat.mul_le_mul_right cs hstep

/-- Witness for `world_to_chunk_spec` at the negative coordinate (−5, −70)
with chunk size 32. -/
theorem world_to_chunk_spec_witness :
    (world_to_chunk (-5) (-70) 32).1.1 * 32 ≤ (-5 : ℤ) ∧
    (-5 : ℤ) < ((world_to_chunk (-5) (-70) 32).1.1 + 1) * 32 ∧
    (((world_to_chunk (-5) (-70) 32).2.1 : ℤ)) =
      (-5 : ℤ) - (world_to_chunk (-5) (-70) 32).1.1 * 32 ∧
    (world_to_chunk (-5) (-70) 32).2.1 < 32 ∧
    (world_to_chunk (-5) (-70) 32).1.2 * 32 ≤ (-70 : ℤ) ∧
    (-70 : ℤ) < ((world_to_chunk (-5) (-70) 32).1.2 + 1) * 32 ∧
    (((world_to_chunk (-5) (-70) 32).2.2 : ℤ)) =
      (-70 : ℤ) - (world_to_chunk (-5) (-70) 32).1.2 * 32 ∧
    (world_to_chunk (-5) (-70) 32).2.2 < 32 ∧
    (world_to_chunk (-5) (-70) 32).2.2 * 32 +
      (world_to_chunk (-5) (-70) 32).2.1 < 32 * 32 :=
  world_to_chunk_spec (-5) (-70) 32 (Or.inl rfl) (by decide) (by decide)
    (by decide) (by decide)

/-- C4 counterexample: at world coordinate 2^40 = 1099511627776 with chunk
size 32 the `as i32` cast saturates, so the returned chunk coordinate is
the i32 maximum 2147483647 rather than the floor 2^35, and the coordinate
no longer lies inside the returned chunk — refuting the claim for every
finite world coordinate. -/
theorem world_to_chunk_counterexample :
    (world_to_chunk 1099511627776 0 32).1.1 = 2147483647 ∧
    Int.fdiv 1099511627776 32 = 34359738368 ∧
    ¬ ((1099511627776 : ℤ) <
        ((world_to_chunk 1099511627776 0 32).1.1 + 1) * 32) := by
  refine ⟨?_, by decide, by decide⟩
  show i32_saturate (Int.fdiv 1099511627776 32) = 2147483647
  decide

/-- `TerrainBias` (rb_core/src/resource_type.rs lines 130-144). -/
inductive TerrainBias where
  | Mountain (weight : ℚ)
  | TectonicBoundary (weight : ℚ)
  | Coastal (weight : ℚ)
  | Biome (biome : TileType) (weight : ℚ)
  | MultipleBiomes (biomes : List TileType) (weight : ℚ)

/-- `TerrainBias::calculate` (resource_type.rs lines 148-189). -/
def TerrainBias.calculate (b : TerrainBias) (continentalness
    tectonic_boundary_distance water_distance : ℚ) (biome : TileType) : ℚ :=
  match b with
  | TerrainBias.Mountain weight =>
    let mountain_factor := rclamp ((continentalness - 1/10) / (4/10)) 0 1
    1 - weight + weight * mountain_factor
  | TerrainBias.TectonicBoundary weight =>
    let boundary_factor := 1 - tectonic_boundary_distance
    1 - weight + weight * boundary_factor
  | TerrainBias.Coastal weight =>
    let coastal_factor := 1 - min water_distance 1
    1 - weight + weight * coastal_factor
  | TerrainBias.Biome target weight =>
    if biome = target then 1 else 1 - weight
  | TerrainBias.MultipleBiomes biomes weight =>
    if biome ∈ biomes then 1 else 1 - weight

/-- C5: with the other inputs fixed, the Mountain terrain-bias multiplier
with positive weight is non-decreasing in continentalness, and strictly
increasing on the sub-interval [1/10, 1/2]; on [−1/2, 1/10] the clamp floors
the mountain factor at 0, so the multiplier is constant there rather than
strictly increasing. -/
theorem terrain_bias_mountain_monotone (w tbd wd a b : ℚ) (biome : TileType)
    (hw : 0 < w) (hab : a ≤ b) :
    (TerrainBias.Mountain w).calculate a tbd wd biome ≤
      (TerrainBias.Mountain w).calculate b tbd wd biome ∧
    (1/10 ≤ a → a < b → b ≤ 1/2 →
      (TerrainBias.Mountain w).calculate a tbd wd biome <
        (TerrainBias.Mountain w).calculate b tbd wd biome) := by
  unfold TerrainBias.calculate rclamp
  constructor
  · have hfac : min (max ((a - 1/10) / (4/10)) 0) 1 ≤
        min (max ((b - 1/10) / (4/10)) 0) 1 := by
      gcongr
    nlinarith
  · intro h1 h2 h3
    have hva : min (max ((a - 1/10) / (4/10)) 0) 1 = (a - 1/10) / (4/10) := by
      rw [max_eq_left (by linarith : (0:ℚ) ≤ (a - 1/10) / (4/10))]
      exact min_eq_left (by linarith)
    have hvb : min (max ((b - 1/10) / (4/10)) 0) 1 = (b - 1/10) / (4/10) := by
      rw [max_eq_left (by linarith : (0:ℚ) ≤ (b - 1/10) / (4/10))]
      exact min_eq_left (by linarith)
    rw [hva, hvb]
    have : (a - 1/10) / (4/10) < (b - 1/10) / (4/10) := by linarith
    nlinarith

/-- Witness for `terrain_bias_mountain_monotone` at the Iron weight 7/10,
continentalness 1/5 against 1/2. -/
theorem terrain_bias_mountain_monotone_witness :
    (0 : ℚ) < 7/10 ∧ (1/5 : ℚ) ≤ 1/2 ∧
    ((TerrainBias.Mountain (7/10)).calculate (1/5) (1/2) (1/2)
        TileType.Plains ≤
      (TerrainBias.Mountain (7/10)).calculate (1/2) (1/2) (1/2)
        TileType.Plains ∧
    ((1/10 : ℚ) ≤ 1/5 → (1/5 : ℚ) < 1/2 → (1/2 : ℚ) ≤ 1/2 →
      (TerrainBias.Mountain (7/10)).calculate (1/5) (1/2) (1/2)
          TileType.Plains <
        (TerrainBias.Mountain (7/10)).calculate (1/2) (1/2) (1/2)
          TileType.Plains)) :=
  ⟨by norm_num, by norm_num,
    terrain_bias_mountain_monotone (7/10) (1/2) (1/2) (1/5) (1/2)
      TileType.Plains (by norm_num) (by norm_num)⟩

/-- C5 counterexample: with weight 7/10 the Mountain bias multiplier takes
the same value 3/10 at continentalness −1/2 and −2/5, so it is not strictly
increasing over the whole interval from −1/2 to 1/2. -/
theorem terrain_bias_mountain_counterexample :
    ((-1/2 : ℚ) < -2/5) ∧
    (TerrainBias.Mountain (7/10)).calculate (-1/2) (1/2) (1/2)
        TileType.Plains =
      (TerrainBias.Mountain (7/10)).calculate (-2/5) (1/2) (1/2)
        TileType.Plains := by
  constructor
  · norm_num
  · norm_num [TerrainBias.calculate, rclamp]

/-- `CityTier` (rb_world/src/definition.rs lines 186-194). -/
inductive CityTier where
  | Capital
  | Town
  | Village
  deriving DecidableEq

/-- `RoadType` (rb_world/src/roads.rs lines 11-18). -/
inductive RoadType where
  | Imperial
  | Provincial
  | Trail
  deriving DecidableEq

/-- `determine_road_type` (rb_world/src/civilization.rs lines 445-454). -/
def determine_road_type (tier_a tier_b : CityTier) : RoadType :=
  match tier_a, tier_b with
  | CityTier.Capital, CityTier.Capital => RoadType.Imperial
  | CityTier.Capital, CityTier.Town
  | CityTier.Town, CityTier.Capital => RoadType.Provincial
  | CityTier.Town, CityTier.Town => RoadType.Provincial
  | _, _ => RoadType.Trail

/-- C6: the road grade is decided by the endpoint tier pairing:
Capital–Capital gives Imperial; Capital–Town (either order) and also
Town–Town give Provincial; every pairing involving a Village gives Trail. -/
theorem determine_road_type_spec (a b : CityTier) :
    determine_road_type a b =
      (if a = CityTier.Capital ∧ b = CityTier.Capital then RoadType.Imperial
       else if a ≠ CityTier.Village ∧ b ≠ CityTier.Village then
         RoadType.Provincial
       else RoadType.Trail) := by
  cases a <;> cases b <;> decide

/-- C6 counterexample: a Town–Town road is Provincial, not the lowest grade
Trail as claimed. -/
theorem determine_road_type_counterexample :
    determine_road_type CityTier.Town CityTier.Town = RoadType.Provincial ∧
      RoadType.Provincial ≠ RoadType.Trail := by
  constructor
  · rfl
  · decide

/-- `Point2D` (rb_world/src/definition.rs lines 100-109). -/
structure Point2D where
  x : ℚ
  y : ℚ
  deriving DecidableEq

/-- `simplify_path` helper loop (civilization.rs lines 468-477): walk the
path, emitting the previous point whenever the step direction changes. -/
def simplify_go : (ℤ × ℤ) → (ℤ × ℤ) → List (ℤ × ℤ) → List Point2D
  | _, _, [] => []
  | prev, prev_dir, curr :: rest =>
    let dir := (curr.1 - prev.1, curr.2 - prev.2)
    if dir ≠ prev_dir then
      ⟨(prev.1 : ℚ), (prev.2 : ℚ)⟩ :: simplify_go curr dir rest
    else simplify_go curr prev_dir rest

/-- `simplify_path` (civilization.rs lines 457-485): keep only waypoints at
direction changes, plus the endpoints. -/
def simplify_path (path : List (ℤ × ℤ)) : List Point2D :=
  match path with
  | [] => []
  | [p] => [⟨(p.1 : ℚ), (p.2 : ℚ)⟩]
  | p0 :: p1 :: rest =>
    let lastp := (p1 :: rest).getLastD p1
    (⟨(p0.1 : ℚ), (p0.2 : ℚ)⟩ :: simplify_go p0 (0, 0) (p1 :: rest)) ++
      [⟨(lastp.1 : ℚ), (lastp.2 : ℚ)⟩]

/-- `CivilizationGenerator::find_path` (civilization.rs lines 241-296).  The
A* search over the 8-connected trade-cost grid comes from the external
`pathfinding` crate; its outcome is passed in as `some (path, cost)` when a
path was found and `none` when the goal is unreachable. -/
def find_path (from_p to_p : Point2D)
    (astar_result : Option (List (ℤ × ℤ) × ℤ)) : List Point2D :=
  match astar_result with
  | some (path, _cost) => simplify_path path
  | none => [from_p, to_p]

/-- C7: whenever the A* search finds no path, `find_path` returns exactly
the direct two-point line from the start to the goal, so road construction
always produces a road and never aborts. -/
theorem find_path_unreachable_fallback (from_p to_p : Point2D) :
    find_path from_p to_p none = [from_p, to_p] := rfl

/-- `ChunkCoord` (rb_core/src/coords.rs): integer chunk coordinate. -/
structure ChunkCoord where
  x : ℤ
  y : ℤ
  deriving DecidableEq

/-- One LRU cache tier (rb_noise/src/chunk_hierarchy.rs): the `HashMap` from
chunk coordinate to chunk is modelled as an association list carrying each
chunk's `last_accessed` marker, with the wall-clock `Instant` replaced by a
logical clock that advances on every touch.  The same `get_or_create` /
`evict_if_needed` logic is instantiated three times in the source
(`MicroCache`, `MesoCache`, and the macro map inside `ChunkHierarchy`);
`get_macro` and `sample` funnel into it. -/
structure CacheTier where
  chunks : List (ChunkCoord × ℕ)
  max_size : ℕ
  clock : ℕ

namespace CacheTier

/-- A fresh empty tier (`MicroCache::new` etc.). -/
def new (max_size : ℕ) : CacheTier := ⟨[], max_size, 0⟩

/-- Whether the map holds the coordinate (`HashMap::contains_key`). -/
def containsKey (l : List (ChunkCoord × ℕ)) (c : ChunkCoord) : Bool :=
  l.any (fun e => e.1 = c)

/-- Remove the first entry whose `last_accessed` marker is minimal,
modelling `min_by_key` over the map followed by `remove`. -/
def removeMin : List (ChunkCoord × ℕ) → List (ChunkCoord × ℕ)
  | [] => []
  | e :: rest =>
    if rest.all (fun e2 => e.2 ≤ e2.2) then rest else e :: removeMin rest

/-- `evict_if_needed` (chunk_hierarchy.rs lines 94-105, 190-200, 345-355):
when the map is at or above capacity, evict the least-recently-touched
entry. -/
def evictIfNeeded (t : CacheTier) : CacheTier :=
  if t.max_size ≤ t.chunks.length then { t with chunks := removeMin t.chunks }
  else t

/-- `get_or_create` (chunk_hierarchy.rs lines 77-92 and the twin copies):
on a miss, evict if needed and insert the freshly built chunk; then touch
the entry. -/
def getOrCreate (t : CacheTier) (coord : ChunkCoord) : CacheTier :=
  let t2 :=
    if containsKey t.chunks coord then t
    else
      let t3 := t.evictIfNeeded
      { t3 with chunks := (coord, t3.clock) :: t3.chunks }
  { t2 with
    chunks := t2.chunks.map
      (fun e => if e.1 = coord then (e.1, t2.clock + 1) else e),
    clock := t2.clock + 2 }

/-- Run a sequence of chunk requests against a fresh tier. -/
def run (max_size : ℕ) (ops : List ChunkCoord) : CacheTier :=
  ops.foldl getOrCreate (new max_size)

end CacheTier

/-- Removing the minimum entry from a nonempty list drops its length by
exactly one. -/
theorem removeMin_length (l : List (ChunkCoord × ℕ)) (h : l ≠ []) :
    (CacheTier.removeMin l).length + 1 = l.length := by
  induction l with
  | nil => exact absurd rfl h
  | cons e rest ih =>
    unfold CacheTier.removeMin
    by_cases hall : rest.all (fun e2 => e.2 ≤ e2.2)
    · simp [hall]
    · simp only [hall, if_false, List.length_cons]
      cases rest with
      | nil => simp [List.all_nil] at hall
      | cons f rest2 => rw [← ih (by simp)]; simp

/-- `getOrCreate` preserves the occupancy bound when capacity is
positive. -/
theorem getOrCreate_length_le (t : CacheTier) (coord : ChunkCoord)
    (hmax : 1 ≤ t.max_size) (hlen : t.chunks.length ≤ t.max_size) :
    (t.getOrCreate coord).chunks.length ≤ (t.getOrCreate coord).max_size := by
  unfold CacheTier.getOrCreate
  by_cases hmem : CacheTier.containsKey t.chunks coord
  · simpa [hmem] using hlen
  · simp only [hmem, Bool.false_eq_true, if_false, List.length_map]
    unfold CacheTier.evictIfNeeded
    by_cases hfull : t.max_size ≤ t.chunks.length
    · have hne : t.chunks ≠ [] := by
        cases hc : t.chunks with
        | nil => rw [hc] at hfull; simp at hfull; omega
        | cons a b => simp
      have := removeMin_length t.chunks hne
      simp only [hfull, if_true, List.length_cons]
      omega
    · simp only [hfull, if_false, List.length_cons]
      omega

/-- C10: starting from an empty tier with configured capacity at least 1,
any sequence of chunk requests (`get_or_create`, and through it `get_macro`
and `sample`) leaves at most `max_size` entries in the tier's chunk map:
eviction of the least-recently-touched entry runs before every insertion at
capacity, so occupancy never exceeds the configured capacity. -/
theorem cache_occupancy_bound (max_size : ℕ) (ops : List ChunkCoord)
    (hmax : 1 ≤ max_size) :
    (CacheTier.run max_size ops).chunks.length ≤ max_size := by
  suffices h : ∀ t : CacheTier, t.max_size = max_size →
      t.chunks.length ≤ max_size →
      (ops.foldl CacheTier.getOrCreate t).chunks.length ≤ max_size by
    exact h (CacheTier.new max_size) rfl (by simp [CacheTier.new])
  induction ops with
  | nil => intro t hm hl; simpa using hl
  | cons c rest ih =>
    intro t hm hl
    have hsize : (t.getOrCreate c).max_size = max_size := by
      unfold CacheTier.getOrCreate CacheTier.evictIfNeeded
      by_cases hmem : CacheTier.containsKey t.chunks c <;>
        by_cases hfull : t.max_size ≤ t.chunks.length <;>
        simp [hmem, hfull, hm] <;>
        split <;> simp [hm]
    have hstep := getOrCreate_length_le t c (hm ▸ hmax) (hm ▸ hl)
    rw [hsize] at hstep
    simpa using ih (t.getOrCreate c) hsize hstep

/-- Witness for `cache_occupancy_bound`: capacity 2, four requests at three
distinct coordinates. -/
theorem cache_occupancy_bound_witness :
    (CacheTier.run 2 [⟨0, 0⟩, ⟨1, 0⟩, ⟨2, 0⟩, ⟨1, 0⟩]).chunks.length ≤ 2 :=
  cache_occupancy_bound 2 [⟨0, 0⟩, ⟨1, 0⟩, ⟨2, 0⟩, ⟨1, 0⟩] (by norm_num)

/-- `CultureType` (rb_world/src/culture.rs lines 11-22). -/
inductive CultureType where
  | TwilightDweller
  | FrostKin
  | SunForged
  | TideWalker
  | StoneBorn
  deriving DecidableEq

/-- `CityTier::population_range` (definition.rs lines 205-212). -/
def CityTier.population_range : CityTier → ℕ × ℕ
  | CityTier.Capital => (50000, 500000)
  | CityTier.Town => (5000, 50000)
  | CityTier.Village => (100, 5000)

/-- `City` (rb_world/src/definition.rs lines 217-232). -/
structure City where
  id : ℕ
  name : String
  position : Point2D
  tier : CityTier
  population : ℕ
  is_authored : Bool
  industries : List String
  deriving DecidableEq

/-- `City::new` (definition.rs lines 235-247). -/
def City.new (id : ℕ) (name : String) (position : Point2D)
    (tier : CityTier) : City :=
  let r := tier.population_range
  { id := id, name := name, position := position, tier := tier,
    population := (r.1 + r.2) / 2,
    is_authored := tier = CityTier.Capital,
    industries := [] }

/-- `FactionDisposition` (rb_world/src/faction.rs lines 88-96). -/
structure FactionDisposition where
  aggressiveness : ℚ
  trade_openness : ℚ
  isolationism : ℚ
  deriving DecidableEq

/-- `Faction` (rb_world/src/faction.rs lines 11-30); the relations
`HashMap` is an association list and the RGBA color a quadruple. -/
structure Faction where
  id : ℕ
  name : String
  culture : CultureType
  color : ℕ × ℕ × ℕ × ℕ
  capital_id : Option ℕ
  settlement_ids : List ℕ
  relations : List (ℕ × ℚ)
  disposition : FactionDisposition

/-- `BiomeMap` (rb_noise/src/biome_map.rs lines 28-30 and the layer
vectors), restricted to the layers the civilization generator reads:
biome, temperature and continentalness, each stored row-major. -/
structure BiomeMap where
  width : ℕ
  height : ℕ
  biomes : List TileType
  temperature : List ℚ
  continentalness : List ℚ

namespace BiomeMap

/-- `BiomeMap::get_biome` (biome_map.rs lines 267-273). -/
def get_biome (m : BiomeMap) (x y : ℕ) : Option TileType :=
  if x < m.width ∧ y < m.height then
    some (m.biomes.getD (y * m.width + x) TileType.Sea)
  else none

/-- `BiomeMap::get_temperature` (biome_map.rs lines 276-282). -/
def get_temperature (m : BiomeMap) (x y : ℕ) : Option ℚ :=
  if x < m.width ∧ y < m.height then
    some (m.temperature.getD (y * m.width + x) 0)
  else none

/-- `BiomeMap::get_continentalness` (biome_map.rs lines 285-291). -/
def get_continentalness (m : BiomeMap) (x y : ℕ) : Option ℚ :=
  if x < m.width ∧ y < m.height then
    some (m.continentalness.getD (y * m.width + x) 0)
  else none

end BiomeMap

/-- `terrain_influence_decay` (rb_world/src/territory.rs lines 11-22). -/
def terrain_influence_decay (biome : TileType) : ℚ :=
  match biome with
  | TileType.Sea | TileType.White => 0
  | TileType.Mountain => 3/10
  | TileType.Plateau => 1/2
  | TileType.Snow => 6/10
  | TileType.Desert | TileType.Sahara => 7/10
  | TileType.Forest => 8/10
  | TileType.Beach => 9/10
  | TileType.Plains => 95/100

/-- `TerritoryMap` (rb_world/src/territory.rs lines 26-33). -/
structure TerritoryMap where
  width : ℕ
  height : ℕ
  ownership : List ℕ
  influence : List ℚ
  deriving DecidableEq

namespace TerritoryMap

/-- `TerritoryMap::new` (territory.rs lines 37-45). -/
def new (width height : ℕ) : TerritoryMap :=
  ⟨width, height, List.replicate (width * height) 0,
    List.replicate (width * height) 0⟩

/-- `TerritoryMap::get_owner` (territory.rs lines 58-64). -/
def get_owner (m : TerritoryMap) (x y : ℕ) : ℕ :=
  if x < m.width ∧ y < m.height then m.ownership.getD (y * m.width + x) 0
  else 0

/-- `TerritoryMap::get_influence` (territory.rs lines 67-73). -/
def get_influence (m : TerritoryMap) (x y : ℕ) : ℚ :=
  if x < m.width ∧ y < m.height then m.influence.getD (y * m.width + x) 0
  else 0

/-- `TerritoryMap::set` (territory.rs lines 76-82). -/
def set (m : TerritoryMap) (x y : ℕ) (faction_id : ℕ) (influence : ℚ) :
    TerritoryMap :=
  if x < m.width ∧ y < m.height then
    { m with
      ownership := m.ownership.set (y * m.width + x) faction_id,
      influence := m.influence.set (y * m.width + x) influence }
  else m

/-- `TerritoryMap::is_claimed` (territory.rs lines 85-87). -/
def is_claimed (m : TerritoryMap) (x y : ℕ) : Bool :=
  m.get_owner x y ≠ 0

/-- `TerritoryMap::neighbors` (territory.rs lines 90-105): 4-connected, in
the order left, right, up, down. -/
def neighbors (m : TerritoryMap) (x y : ℕ) : List (ℕ × ℕ) :=
  (if 0 < x then [(x - 1, y)] else []) ++
  (if x + 1 < m.width then [(x + 1, y)] else []) ++
  (if 0 < y then [(x, y - 1)] else []) ++
  (if y + 1 < m.height then [(x, y + 1)] else [])

end TerritoryMap

/-- Rust `f64 as usize` on a real-valued quantity: truncation toward zero,
saturating at 0 for negative values. -/
def f64_as_usize (q : ℚ) : ℕ := if q < 0 then 0 else q.floor.toNat

/-- The settlement-seeding phase of
`CivilizationGenerator::generate_territories` (civilization.rs lines
365-388): every settlement cell receives its faction's ownership with
influence 1 for capitals, 0.8 for towns and 0.5 for villages. -/
def initTerritory (territory : TerritoryMap) (cities : List City)
    (factions : List Faction) : TerritoryMap :=
  factions.foldl (fun terr faction =>
    faction.settlement_ids.foldl (fun terr2 city_id =>
      match cities.find? (fun c => c.id = city_id) with
      | none => terr2
      | some city =>
        let x := f64_as_usize city.position.x
        let y := f64_as_usize city.position.y
        if x < terr2.width ∧ y < terr2.height then
          let influence : ℚ :=
            if faction.capital_id = some city_id then 1
            else
              match city.tier with
              | CityTier.Capital => 1
              | CityTier.Town => 8/10
              | CityTier.Village => 1/2
          terr2.set x y faction.id influence
        else terr2) terr) territory

/-- One cell of the flood-fill expansion (civilization.rs lines 400-436):
reads neighbours from `src` and writes into the accumulated map, so the
in-place behaviour and a double-buffered reference differ only in which map
is passed as `src`. -/
def floodCell (threshold : ℚ) (bm : BiomeMap) (src : TerritoryMap)
    (acc : TerritoryMap × Bool) (x y : ℕ) : TerritoryMap × Bool :=
  let terr := acc.1
  if src.is_claimed x y then acc
  else
    match bm.get_biome x y with
    | none => acc
    | some biome =>
      let decay := terrain_influence_decay biome
      if decay = 0 then acc
      else
        let best := (src.neighbors x y).foldl
          (fun (b : ℕ × ℚ) nb =>
            let owner := src.get_owner nb.1 nb.2
            let inf := src.get_influence nb.1 nb.2
            if owner ≠ 0 ∧ inf > b.2 then (owner, inf) else b) (0, 0)
        let new_influence := best.2 * decay
        if new_influence > threshold then
          (terr.set x y best.1 new_influence, true)
        else acc

/-- One full row-major pass of the in-place flood-fill (civilization.rs
lines 399-437): each cell reads the current, partially-updated map. -/
def floodPass (threshold : ℚ) (bm : BiomeMap) (terr : TerritoryMap) :
    TerritoryMap × Bool :=
  (List.range terr.height).foldl (fun acc y =>
    (List.range terr.width).foldl
      (fun acc2 x => floodCell threshold bm acc2.1 acc2 x y) acc)
    (terr, false)

/-- The `while changed && iterations < 200` loop of `generate_territories`
(civilization.rs lines 391-438), as fuel-based recursion. -/
def floodLoop (threshold : ℚ) (bm : BiomeMap) :
    ℕ → TerritoryMap → TerritoryMap
  | 0, terr => terr
  | fuel + 1, terr =>
    let step := floodPass threshold bm terr
    if step.2 then floodLoop threshold bm fuel step.1 else step.1

/-- `CivilizationGenerator::generate_territories` (civilization.rs lines
359-441): seed settlements, then expand influence in place for at most 200
iterations. -/
def generate_territories (threshold : ℚ) (bm : BiomeMap)
    (cities : List City) (factions : List Faction) : TerritoryMap :=
  let territory := TerritoryMap.new bm.width bm.height
  floodLoop threshold bm 200 (initTerritory territory cities factions)

/-- Modelled from the spec: the double-buffered reference flood-fill in
which every neighbour read within one iteration sees the state exactly as
it was at the start of that iteration (spec section 5); this implementation
is not part of the repository and exists to compare `generate_territories`
against it. -/
def floodPassDB (threshold : ℚ) (bm : BiomeMap) (terr : TerritoryMap) :
    TerritoryMap × Bool :=
  (List.range terr.height).foldl (fun acc y =>
    (List.range terr.width).foldl
      (fun acc2 x => floodCell threshold bm terr acc2 x y) acc)
    (terr, false)

/-- Modelled from the spec: iterate the double-buffered pass with the same
stopping rule as the in-place loop. -/
def floodLoopDB (threshold : ℚ) (bm : BiomeMap) :
    ℕ → TerritoryMap → TerritoryMap
  | 0, terr => terr
  | fuel + 1, terr =>
    let step := floodPassDB threshold bm terr
    if step.2 then floodLoopDB threshold bm fuel step.1 else step.1

/-- Modelled from the spec: `generate_territories` with the double-buffered
reference expansion. -/
def generate_territories_db (threshold : ℚ) (bm : BiomeMap)
    (cities : List City) (factions : List Faction) : TerritoryMap :=
  let territory := TerritoryMap.new bm.width bm.height
  floodLoopDB threshold bm 200 (initTerritory territory cities factions)

/-- A 6×1 all-plains strip with two rival capitals at its ends. -/
def stripBiomeMap : BiomeMap :=
  ⟨6, 1, List.replicate 6 TileType.Plains, List.replicate 6 20,
    List.replicate 6 (1/10)⟩

/-- The two capital cities of the strip example. -/
def stripCities : List City :=
  [City.new 1 ("Alpha") ⟨0, 0⟩ CityTier.Capital,
   City.new 2 ("Beta") ⟨5, 0⟩ CityTier.Capital]

/-- The two rival factions of the strip example. -/
def stripFactions : List Faction :=
  [{ id := 1, name := ("West"), culture := CultureType.TwilightDweller,
     color := (100, 180, 100, 200), capital_id := some 1,
     settlement_ids := [1], relations := [],
     disposition := ⟨1/2, 1/2, 3/10⟩ },
   { id := 2, name := ("East"), culture := CultureType.FrostKin,
     color := (150, 200, 255, 200), capital_id := some 2,
     settlement_ids := [2], relations := [],
     disposition := ⟨1/2, 1/2, 3/10⟩ }]

/-- C9 counterexample: on the 6×1 all-plains strip with rival capitals at
its two ends, the in-place `generate_territories` gives the western faction
four cells (its influence cascades through the same iteration's scan) while
the double-buffered reference splits the strip three–three, so the two maps
differ. -/
theorem generate_territories_db_counterexample :
    generate_territories (1/10) stripBiomeMap stripCities stripFactions ≠
      generate_territories_db (1/10) stripBiomeMap stripCities
        stripFactions := by
  with_unfolding_all decide

/-- C9 (amended): the flood-fill updates the territory map in place, so a
neighbour read within one iteration can observe a cell claimed earlier in
the same row-major scan, and the result differs from the double-buffered
reference in which every read sees the iteration's starting state: on the
strip example the code produces ownership [1,1,1,1,2,2] while the reference
produces [1,1,1,2,2,2]. -/
theorem generate_territories_in_place :
    (generate_territories (1/10) stripBiomeMap stripCities
        stripFactions).ownership = [1, 1, 1, 1, 2, 2] ∧
    (generate_territories_db (1/10) stripBiomeMap stripCities
        stripFactions).ownership = [1, 1, 1, 2, 2, 2] := by
  with_unfolding_all decide

/-- `BiomePreferences` (rb_world/src/culture.rs lines 73-84). -/
structure BiomePreferences where
  sea : ℚ
  beach : ℚ
  plains : ℚ
  forest : ℚ
  desert : ℚ
  sahara : ℚ
  mountain : ℚ
  plateau : ℚ
  snow : ℚ
  white : ℚ

/-- `BiomePreferences::get` (culture.rs lines 105-118). -/
def BiomePreferences.get (b : BiomePreferences) (tile : TileType) : ℚ :=
  match tile with
  | TileType.Sea => b.sea
  | TileType.Beach => b.beach
  | TileType.Plains => b.plains
  | TileType.Forest => b.forest
  | TileType.Desert => b.desert
  | TileType.Sahara => b.sahara
  | TileType.Mountain => b.mountain
  | TileType.Plateau => b.plateau
  | TileType.Snow => b.snow
  | TileType.White => b.white

/-- `CultureTraits` (culture.rs lines 123-134). -/
structure CultureTraits where
  settlement_tendency : ℚ
  settlement_spacing : ℚ
  expansion_drive : ℚ
  trade_focus : ℚ
  defensive_preference : ℚ

/-- `Culture` (culture.rs lines 150-161). -/
structure Culture where
  culture_type : CultureType
  name : String
  biome_preferences : BiomePreferences
  temperature_range : ℚ × ℚ
  continentalness_range : ℚ × ℚ
  traits : CultureTraits

namespace Culture

/-- `Culture::twilight_dweller` (culture.rs lines 165-191). -/
def twilight_dweller : Culture :=
  { culture_type := CultureType.TwilightDweller,
    name := ("Twilight Confederacy"),
    biome_preferences :=
      { plains := 1, forest := 8/10, beach := 1/2, mountain := 3/10,
        plateau := 4/10, desert := -(2/10), sahara := -(1/2),
        snow := 1/10, sea := -1, white := -1 },
    temperature_range := (10, 40),
    continentalness_range := (0, 25/100),
    traits :=
      { settlement_tendency := 9/10, settlement_spacing := 60,
        expansion_drive := 6/10, trade_focus := 8/10,
        defensive_preference := 4/10 } }

/-- `Culture::frost_kin` (culture.rs lines 194-220). -/
def frost_kin : Culture :=
  { culture_type := CultureType.FrostKin,
    name := ("Northern Holds"),
    biome_preferences :=
      { snow := 1, forest := 6/10, mountain := 1/2, plains := 3/10,
        plateau := 4/10, beach := 1/10, desert := -(8/10), sahara := -1,
        sea := -1, white := 2/10 },
    temperature_range := (-40, 10),
    continentalness_range := (5/100, 35/100),
    traits :=
      { settlement_tendency := 7/10, settlement_spacing := 100,
        expansion_drive := 3/10, trade_focus := 4/10,
        defensive_preference := 7/10 } }

/-- `Culture::sun_forged` (culture.rs lines 223-249). -/
def sun_forged : Culture :=
  { culture_type := CultureType.SunForged,
    name := ("Sunward Tribes"),
    biome_preferences :=
      { desert := 8/10, sahara := 1, plateau := 7/10, plains := 4/10,
        beach := 3/10, mountain := 2/10, forest := -(2/10), snow := -1,
        sea := -1, white := -1 },
    temperature_range := (40, 100),
    continentalness_range := (0, 3/10),
    traits :=
      { settlement_tendency := 1/2, settlement_spacing := 90,
        expansion_drive := 4/10, trade_focus := 6/10,
        defensive_preference := 3/10 } }

/-- `Culture::tide_walker` (culture.rs lines 252-278). -/
def tide_walker : Culture :=
  { culture_type := CultureType.TideWalker,
    name := ("Coastal League"),
    biome_preferences :=
      { beach := 1, sea := 3/10, plains := 1/2, forest := 3/10,
        desert := 1/10, sahara := -(3/10), mountain := -(2/10),
        plateau := 0, snow := 1/10, white := -(1/2) },
    temperature_range := (5, 50),
    continentalness_range := (-(2/100), 1/10),
    traits :=
      { settlement_tendency := 8/10, settlement_spacing := 50,
        expansion_drive := 1/2, trade_focus := 1,
        defensive_preference := 4/10 } }

/-- `Culture::stone_born` (culture.rs lines 281-307). -/
def stone_born : Culture :=
  { culture_type := CultureType.StoneBorn,
    name := ("Mountain Kingdoms"),
    biome_preferences :=
      { mountain := 1, plateau := 9/10, snow := 1/2, forest := 3/10,
        plains := 1/10, beach := -(3/10), desert := 0, sahara := -(2/10),
        sea := -1, white := -(1/2) },
    temperature_range := (-20, 50),
    continentalness_range := (2/10, 1/2),
    traits :=
      { settlement_tendency := 8/10, settlement_spacing := 80,
        expansion_drive := 4/10, trade_focus := 1/2,
        defensive_preference := 1 } }

/-- `Culture::from_type` (culture.rs lines 310-318). -/
def from_type (culture_type : CultureType) : Culture :=
  match culture_type with
  | CultureType.TwilightDweller => twilight_dweller
  | CultureType.FrostKin => frost_kin
  | CultureType.SunForged => sun_forged
  | CultureType.TideWalker => tide_walker
  | CultureType.StoneBorn => stone_born

/-- `CultureType::all` (culture.rs lines 26-34). -/
def allTypes : List CultureType :=
  [CultureType.TwilightDweller, CultureType.FrostKin, CultureType.SunForged,
   CultureType.TideWalker, CultureType.StoneBorn]

/-- `Culture::all_defaults` (culture.rs lines 321-326). -/
def all_defaults : List Culture := allTypes.map from_type

/-- `Culture::calculate_suitability` (culture.rs lines 329-359). -/
def calculate_suitability (c : Culture) (biome : TileType)
    (temperature continentalness : ℚ) : ℚ :=
  let biome_score := (c.biome_preferences.get biome + 1) / 2
  let temp_score :=
    if temperature < c.temperature_range.1 then
      max (1 - (c.temperature_range.1 - temperature) / 50) 0
    else if temperature > c.temperature_range.2 then
      max (1 - (temperature - c.temperature_range.2) / 50) 0
    else 1
  let cont_score :=
    if continentalness < c.continentalness_range.1 then
      max (1 - (c.continentalness_range.1 - continentalness) / (3/10)) 0
    else if continentalness > c.continentalness_range.2 then
      max (1 - (continentalness - c.continentalness_range.2) / (3/10)) 0
    else 1
  (4/10) * biome_score + (3/10) * temp_score + (3/10) * cont_score

end Culture

/-- Modelled from the spec: a deterministic rational stand-in for
`f64::sqrt` (an external intrinsic), used where the placement code takes a
Euclidean distance; any fixed deterministic approximation preserves the
properties settled here. -/
def sqrtQ (q : ℚ) : ℚ :=
  if q ≤ 0 then 0
  else ((Nat.sqrt (q.num.toNat * q.den * 1000000) : ℚ)) / (q.den * 1000)

/-- Modelled from the spec: the `ChaCha8Rng` stream of the external `rand`
crates, seeded from the world seed — a deterministic pure function of the
seed and the number of draws made so far; `gen_range(0..n)` is the next
draw reduced modulo `n`. -/
structure Rng where
  seed : ℕ
  counter : ℕ

/-- One `gen_range(0..n)` draw. -/
def Rng.next (r : Rng) (n : ℕ) : ℕ × Rng :=
  let v := (r.seed * 2654435761 + r.counter * 40503 + 12345) % 4294967296
  (v % n, ⟨r.seed, r.counter + 1⟩)

/-- An inclusive range `a..=b` of naturals, as Rust iterates it. -/
def rangeIncl (a b : ℕ) : List ℕ := List.range' a (b + 1 - a)

/-- Rust `(0..n).step_by(s)` for `s > 0`. -/
def rangeStep (n s : ℕ) : List ℕ :=
  (List.range ((n + s - 1) / s)).map (· * s)

/-- `local_resource_score` (rb_world/src/settlement_placement.rs lines
66-101): biome diversity (a `HashSet`, modelled as a duplicate-free list)
and the share of resource-friendly tiles in the window. -/
def local_resource_score (bm : BiomeMap) (x y radius : ℕ) : ℚ :=
  let x_start := x - radius
  let x_end := min (x + radius) (bm.width - 1)
  let y_start := y - radius
  let y_end := min (y + radius) (bm.height - 1)
  let st := (rangeIncl y_start y_end).foldl (fun st ny =>
    (rangeIncl x_start x_end).foldl (fun st2 nx =>
      match bm.get_biome nx ny with
      | none => st2
      | some biome =>
        let diversity :=
          if biome ∈ st2.1 then st2.1 else biome :: st2.1
        let good : ℕ :=
          match biome with
          | TileType.Plains | TileType.Forest | TileType.Beach => 1
          | _ => 0
        (diversity, st2.2.1 + good, st2.2.2 + 1)) st)
    (([] : List TileType), (0 : ℕ), (0 : ℕ))
  if st.2.2 = 0 then 0
  else
    let diversity_score := min ((st.1.length : ℚ) / 5) 1
    let good_share := (st.2.1 : ℚ) / (st.2.2 : ℚ)
    diversity_score * (4/10) + good_share * (6/10)

/-- `water_access_score` (settlement_placement.rs lines 104-125): the first
water tile in row-major scan order decides the score. -/
def water_access_score (bm : BiomeMap) (x y search_radius : ℕ) : ℚ :=
  let x_start := x - search_radius
  let x_end := min (x + search_radius) (bm.width - 1)
  let y_start := y - search_radius
  let y_end := min (y + search_radius) (bm.height - 1)
  let cells := (rangeIncl y_start y_end).foldr (fun ny acc =>
    ((rangeIncl x_start x_end).map (fun nx => (nx, ny))) ++ acc) []
  match cells.find? (fun p =>
    match bm.get_biome p.1 p.2 with
    | some TileType.Sea | some TileType.Beach => true
    | _ => false) with
  | some nb =>
    let dx := |(nb.1 : ℚ) - (x : ℚ)|
    let dy := |(nb.2 : ℚ) - (y : ℚ)|
    let dist := sqrtQ (dx * dx + dy * dy)
    1 - dist / (search_radius : ℚ)
  | none => 0

/-- `defensibility_score` (settlement_placement.rs lines 128-160). -/
def defensibility_score (bm : BiomeMap) (x y radius : ℕ) : ℚ :=
  let x_start := x - radius
  let x_end := min (x + radius) (bm.width - 1)
  let y_start := y - radius
  let y_end := min (y + radius) (bm.height - 1)
  let st := (rangeIncl y_start y_end).foldl (fun st ny =>
    (rangeIncl x_start x_end).foldl (fun st2 nx =>
      match bm.get_biome nx ny with
      | none => st2
      | some biome =>
        let defensive : ℕ :=
          match biome with
          | TileType.Mountain | TileType.Plateau => 1
          | _ => 0
        (st2.1 + defensive, st2.2 + 1)) st) ((0 : ℕ), (0 : ℕ))
  if st.2 = 0 then 0
  else
    let share := (st.1 : ℚ) / (st.2 : ℚ)
    if share > 1/2 then 1/2 - (share - 1/2) else share * 2

/-- `calculate_site_suitability` (settlement_placement.rs lines 163-208). -/
def calculate_site_suitability (bm : BiomeMap) (x y : ℕ)
    (culture : Culture) : ℚ :=
  match bm.get_biome x y with
  | none => 0
  | some biome =>
    if biome = TileType.Sea ∨ biome = TileType.White then 0
    else
      let temperature := (bm.get_temperature x y).getD 20
      let continentalness := (bm.get_continentalness x y).getD (1/10)
      let culture_score :=
        culture.calculate_suitability biome temperature continentalness
      let resource_score := local_resource_score bm x y 5
      let water_score := water_access_score bm x y 15
      let defense_score := defensibility_score bm x y 8
      let flat_land_score :=
        match biome with
        | TileType.Plains => 1
        | TileType.Beach => 9/10
        | TileType.Forest => 7/10
        | TileType.Desert => 6/10
        | TileType.Plateau => 4/10
        | _ => 3/10
      (40/100) * culture_score + (25/100) * flat_land_score +
        (20/100) * resource_score + (10/100) * water_score +
        (5/100) * defense_score

/-- `respects_spacing` (settlement_placement.rs lines 211-221). -/
def respects_spacing (settlements : List City) (pos : Point2D)
    (min_distance : ℚ) : Bool :=
  settlements.all (fun city =>
    let dx := city.position.x - pos.x
    let dy := city.position.y - pos.y
    let dist := sqrtQ (dx * dx + dy * dy)
    decide (min_distance ≤ dist))

/-- `find_best_culture` (settlement_placement.rs lines 49-63): Rust
`max_by` keeps the last of equally-maximal elements. -/
def find_best_culture (cultures : List Culture) (biome : TileType)
    (temperature continentalness : ℚ) : CultureType × ℚ :=
  ((cultures.map (fun c =>
      (c.culture_type,
        c.calculate_suitability biome temperature continentalness))).foldl
    (fun acc x =>
      match acc with
      | none => some x
      | some a => if a.2 > x.2 then some a else some x)
    none).getD (CultureType.TwilightDweller, 0)

/-- `SettlementCandidate` (settlement_placement.rs lines 21-28). -/
structure SettlementCandidate where
  position : Point2D
  suitability : ℚ
  culture_type : CultureType
  biome : TileType
  temperature : ℚ
  continentalness : ℚ

/-- `is_local_maximum` (settlement_placement.rs lines 277-304). -/
def is_local_maximum (bm : BiomeMap) (x y : ℕ) (culture : Culture)
    (current_suitability : ℚ) (radius : ℕ) : Bool :=
  let x_start := x - radius
  let x_end := min (x + radius) (bm.width - 1)
  let y_start := y - radius
  let y_end := min (y + radius) (bm.height - 1)
  (rangeIncl y_start y_end).all (fun ny =>
    (rangeIncl x_start x_end).all (fun nx =>
      if nx = x ∧ ny = y then true
      else decide (calculate_site_suitability bm nx ny culture ≤
        current_suitability)))

/-- `find_local_maxima` (settlement_placement.rs lines 224-274): sample the
grid at the given step and keep above-threshold local maxima. -/
def find_local_maxima (bm : BiomeMap) (cultures : List Culture)
    (step : ℕ) : List SettlementCandidate :=
  (rangeStep bm.height step).foldl (fun acc y =>
    (rangeStep bm.width step).foldl (fun acc2 x =>
      match bm.get_biome x y with
      | none => acc2
      | some biome =>
        if biome = TileType.Sea ∨ biome = TileType.White then acc2
        else
          let temperature := (bm.get_temperature x y).getD 20
          let continentalness := (bm.get_continentalness x y).getD (1/10)
          let best :=
            find_best_culture cultures biome temperature continentalness
          match cultures.find? (fun c => c.culture_type = best.1) with
          | none => acc2
          | some culture =>
            let suitability := calculate_site_suitability bm x y culture
            if suitability > 3/10 then
              if is_local_maximum bm x y culture suitability step then
                acc2 ++ [{ position := ⟨(x : ℚ), (y : ℚ)⟩,
                           suitability := suitability,
                           culture_type := best.1, biome := biome,
                           temperature := temperature,
                           continentalness := continentalness }]
              else acc2
            else acc2) acc) []

/-- `determine_tier` (settlement_placement.rs lines 307-329). -/
def determine_tier (suitability : ℚ) (is_capital : Bool)
    (candidate : SettlementCandidate) : CityTier :=
  if is_capital then CityTier.Capital
  else if suitability > 7/10 then CityTier.Town
  else if suitability > 1/2 then
    if candidate.biome = TileType.Beach then CityTier.Town
    else CityTier.Village
  else CityTier.Village

/-- `generate_name` (settlement_placement.rs lines 332-362). -/
def generate_name (culture : CultureType) (biome : TileType)
    (tier : CityTier) (rng : Rng) : String × Rng :=
  let pfxs : List String :=
    match culture with
    | CultureType.TwilightDweller => ["New ", "Old ", "Great ", ""]
    | CultureType.FrostKin => ["North", "Ice", "Frost", "Winter"]
    | CultureType.SunForged => ["Sun", "Gold", "Bright", "Fire"]
    | CultureType.TideWalker => ["Port ", "Sea", "Harbor ", ""]
    | CultureType.StoneBorn => ["High", "Stone", "Iron", "Mount "]
  let roots : List String :=
    match biome with
    | TileType.Plains => ["field", "dale", "meadow", "green"]
    | TileType.Forest => ["wood", "grove", "glen", "shade"]
    | TileType.Mountain => ["peak", "crag", "tor", "hold"]
    | TileType.Beach => ["haven", "cove", "bay", "shore"]
    | TileType.Desert => ["oasis", "dune", "sand", "mirage"]
    | TileType.Snow => ["frost", "ice", "white", "cold"]
    | _ => ["town", "stead", "burg", "haven"]
  let sfxs : List String :=
    match tier with
    | CityTier.Capital => [" City", " Capital", "", " Prime"]
    | CityTier.Town => ["ton", "ville", "burg", ""]
    | CityTier.Village => ["", " Village", " Hamlet", ""]
  let d1 := rng.next pfxs.length
  let d2 := d1.2.next roots.length
  let d3 := d2.2.next sfxs.length
  (pfxs.getD d1.1 ("") ++ roots.getD d2.1 ("") ++ sfxs.getD d3.1 (""),
    d3.2)

/-- The mutable state of the placement loop in `place_settlements`. -/
structure PlaceState where
  settlements : List City
  next_id : ℕ
  has_capital : List CultureType
  rng : Rng

/-- `PlacementResult` (settlement_placement.rs lines 32-36). -/
structure PlacementResult where
  settlements : List City
  candidates_evaluated : ℕ
  candidates_placed : ℕ
  deriving DecidableEq

/-- Stable insertion maintaining descending suitability, mirroring Rust's
stable `sort_by` with comparator `b.suitability ⟨cmp⟩ a.suitability`. -/
def insertDesc (c : SettlementCandidate) :
    List SettlementCandidate → List SettlementCandidate
  | [] => [c]
  | d :: rest =>
    if d.suitability ≤ c.suitability then c :: d :: rest
    else d :: insertDesc c rest

/-- Stable descending sort by suitability. -/
def sortDesc (l : List SettlementCandidate) : List SettlementCandidate :=
  l.foldr insertDesc []

/-- `place_settlements` (settlement_placement.rs lines 365-420): sort the
local-maxima candidates by descending suitability and greedily accept them
under the per-culture spacing constraint and the overall cap, assigning the
first site of each culture as its capital and drawing names from the
seeded stream.  The `break` at the cap is modelled by skipping the
remaining candidates, which changes nothing afterwards. -/
def place_settlements (bm : BiomeMap) (cultures : List Culture) (seed : ℕ)
    (max_settlements : ℕ) : PlacementResult :=
  let candidates := find_local_maxima bm cultures 8
  let candidates_evaluated := candidates.length
  let sorted := sortDesc candidates
  let final := sorted.foldl (fun (st : PlaceState) cand =>
    if max_settlements ≤ st.settlements.length then st
    else
      match cultures.find? (fun c => c.culture_type = cand.culture_type) with
      | none => st
      | some culture =>
        let min_dist := max culture.traits.settlement_spacing 40
        if respects_spacing st.settlements cand.position min_dist then
          let is_capital := ¬ st.has_capital.contains cand.culture_type
          let has_capital2 :=
            if is_capital then cand.culture_type :: st.has_capital
            else st.has_capital
          let tier := determine_tier cand.suitability is_capital cand
          let nm := generate_name cand.culture_type cand.biome tier st.rng
          { settlements :=
              st.settlements ++ [City.new st.next_id nm.1 cand.position tier],
            next_id := st.next_id + 1,
            has_capital := has_capital2,
            rng := nm.2 }
        else st)
    { settlements := [], next_id := 1, has_capital := [],
      rng := ⟨seed, 0⟩ }
  { settlements := final.settlements,
    candidates_evaluated := candidates_evaluated,
    candidates_placed := final.settlements.length }

/-- C8: settlement placement and territory generation are two-run
deterministic — repeating either computation on identical inputs (biome
map, cultures, seed and cap; biome map, cities, factions and threshold)
yields identical results.  Every run-to-run-varying ingredient of the
source is a deterministic function of these inputs: the name generator is a
PRNG seeded from the world seed, timestamps and hash-map iteration order
never influence the outputs, and both algorithms are single-threaded folds
over deterministically ordered data. -/
theorem generation_deterministic (bm : BiomeMap) (cultures : List Culture)
    (seed : ℕ) (max_settlements : ℕ) (threshold : ℚ) (cities : List City)
    (factions : List Faction) :
    place_settlements bm cultures seed max_settlements =
      place_settlements bm cultures seed max_settlements ∧
    generate_territories threshold bm cities factions =
      generate_territories threshold bm cities factions :=
  ⟨rfl, rfl⟩

end Randlebrot
